import Mathlib

/-!
Shallow embedding of `pkg/pci/pci_linux.go` from the `ghw` repository.

Conventions of the embedding:
* Go byte slices of modalias file contents are modelled as `List Char`
  (modalias blobs are single-line ASCII, one byte per character).
* Go `nil`-able pointers and map lookups that may miss are modelled with
  `Option`.
* `ioutil.ReadFile` returns a byte slice whose capacity is at least 512
  bytes (`bytes.MinRead` before Go 1.16, the 512-byte floor in
  `os.ReadFile` since), and the bytes between the file's length and that
  capacity are zeroed.  A Go slice expression on a slice is
  bounds-checked against the capacity, not the length, so the
  fixed-offset slices in `parseModaliasFile` (upper bounds ≤ 53 ≤ 512)
  never fail: on a file shorter than 53 bytes they read NUL bytes from
  the zeroed over-allocation.  The embedding therefore slices a
  zero-padded capacity buffer and is total — no crash is reachable in
  this file.
* `strings.ToLower` is modelled per-character with `Char.toLower`
  (identical to Go on ASCII input, which is the domain of modalias data).
-/

namespace Ghw

/-- `util.UNKNOWN` from `pkg/util`. -/
def UNKNOWN : String := "unknown"

/-- `pcidb.ProgrammingInterface`. -/
structure ProgrammingInterface where
  ID : String
  Name : String

/-- `pcidb.Subclass`. -/
structure Subclass where
  ID : String
  Name : String
  ProgrammingInterfaces : List ProgrammingInterface

/-- `pcidb.Class`. -/
structure PCIClass where
  ID : String
  Name : String
  Subclasses : List Subclass

/-- `pcidb.Product`: recursive because `Subsystems` is itself a list of
products (`[]*pcidb.Product` in Go). -/
inductive Product where
  | mk (VendorID ID Name : String) (Subsystems : List Product)

def Product.VendorID : Product → String
  | .mk v _ _ _ => v

def Product.ID : Product → String
  | .mk _ i _ _ => i

def Product.Name : Product → String
  | .mk _ _ n _ => n

def Product.Subsystems : Product → List Product
  | .mk _ _ _ s => s

/-- `pcidb.Vendor`. -/
structure Vendor where
  ID : String
  Name : String
  Products : List Product

/-- The lookup maps of `pci.Info` (filled by `load()` from the pcidb
database).  Go maps returning `nil` on a miss are modelled as functions
into `Option`. -/
structure Info where
  Classes : String → Option PCIClass
  Vendors : String → Option Vendor
  Products : String → Option Product

/-- `deviceModaliasInfo` struct. -/
structure deviceModaliasInfo where
  vendorID : String
  productID : String
  subproductID : String
  subvendorID : String
  classID : String
  subclassID : String
  progIfaceID : String
deriving DecidableEq

/-- The NUL byte, the content of the zeroed part of a read buffer. -/
def nulChar : Char := Char.ofNat 0

/-- The buffer returned by `ioutil.ReadFile`: the file's bytes followed
by the zeroed over-allocation up to the capacity (at least 512; for
files of at least 512 bytes the padding is empty and irrelevant, since
every slice taken in this file ends at or before index 53). -/
def readBuffer (data : List Char) (cap : Nat) : List Char :=
  data ++ List.replicate (cap - data.length) nulChar

/-- The value of the Go slice expression `data[a:b]` on the slice
returned by `ioutil.ReadFile`: the bound `b ≤ 512 ≤ cap` is checked
against the capacity, so the expression succeeds and indices at or
beyond the file's length read NUL from the zeroed over-allocation. -/
def goSlice (data : List Char) (a b : Nat) : List Char :=
  ((readBuffer data 512).drop a).take (b - a)

/-- `strings.ToLower` restricted to ASCII, applied to a slice and
converted to a Go string. -/
def goToLowerStr (cs : List Char) : String :=
  (cs.map Char.toLower).asString

/-- `string(data[a:b])` without case conversion. -/
def goStr (cs : List Char) : String :=
  cs.asString

/-- The body of `parseModaliasFile` after a successful read: the data is
sliced at fixed offsets with no length check.  Since all slice bounds
are within the read buffer's capacity, this is total: a file shorter
than 53 bytes still decodes, its missing bytes read as NUL. -/
def parseModaliasData (data : List Char) : deviceModaliasInfo where
  vendorID := goToLowerStr (goSlice data 9 13)
  productID := goToLowerStr (goSlice data 18 22)
  subvendorID := goToLowerStr (goSlice data 28 32)
  subproductID := goToLowerStr (goSlice data 38 42)
  classID := goStr (goSlice data 44 46)
  subclassID := goStr (goSlice data 48 50)
  progIfaceID := goStr (goSlice data 51 53)

/-- `parseModaliasFile`: the `os.Stat` / `ioutil.ReadFile` failure paths
return `nil`; a successfully read file's bytes go through
`parseModaliasData`.  `file = none` models an absent or unreadable file. -/
def parseModaliasFile (file : Option (List Char)) : Option deviceModaliasInfo :=
  file.map parseModaliasData

/-- `findPCIVendor`: a miss in the vendor map yields a synthetic vendor
with the `unknown` sentinel name and an empty product list. -/
def findPCIVendor (info : Info) (vendorID : String) : Vendor :=
  match info.Vendors vendorID with
  | none => { ID := vendorID, Name := UNKNOWN, Products := [] }
  | some vendor => vendor

/-- `findPCIProduct`: keyed by `vendorID+productID`; a miss yields a
synthetic product (Go leaves `VendorID` at its zero value `""`). -/
def findPCIProduct (info : Info) (vendorID productID : String) : Product :=
  match info.Products (vendorID ++ productID) with
  | none => .mk "" productID UNKNOWN []
  | some product => product

/-- `findPCISubsystem`: both the product (by `vendorID+productID`) and the
subvendor (by `subvendorID`) must exist before the product's `Subsystems`
list is searched; the first entry whose `ID` equals `subproductID` wins;
otherwise a synthetic product is returned (`Subsystems` is Go's zero
value `nil`, modelled as `[]`). -/
def findPCISubsystem (info : Info)
    (vendorID productID subvendorID subproductID : String) : Product :=
  let product := info.Products (vendorID ++ productID)
  let subvendor := info.Vendors subvendorID
  match subvendor, product with
  | some _, some prod =>
    match prod.Subsystems.find? (fun p => p.ID == subproductID) with
    | some p => p
    | none => .mk subvendorID subproductID UNKNOWN []
  | _, _ => .mk subvendorID subproductID UNKNOWN []

/-- `findPCIClass`: a miss in the class map yields a synthetic class. -/
def findPCIClass (info : Info) (classID : String) : PCIClass :=
  match info.Classes classID with
  | none => { ID := classID, Name := UNKNOWN, Subclasses := [] }
  | some class0 => class0

/-- `findPCISubclass`: the class must exist, then the first subclass with
matching `ID` wins; a miss at either step yields a synthetic subclass. -/
def findPCISubclass (info : Info) (classID subclassID : String) : Subclass :=
  match info.Classes classID with
  | some class0 =>
    match class0.Subclasses.find? (fun sc => sc.ID == subclassID) with
    | some sc => sc
    | none => { ID := subclassID, Name := UNKNOWN, ProgrammingInterfaces := [] }
  | none => { ID := subclassID, Name := UNKNOWN, ProgrammingInterfaces := [] }

/-- `findPCIProgrammingInterface`: reuses `findPCISubclass` and searches
the resolved subclass's interface list; a miss yields a synthetic record. -/
def findPCIProgrammingInterface (info : Info)
    (classID subclassID progIfaceID : String) : ProgrammingInterface :=
  let subclass := findPCISubclass info classID subclassID
  match subclass.ProgrammingInterfaces.find? (fun pi0 => pi0.ID == progIfaceID) with
  | some pi0 => pi0
  | none => { ID := progIfaceID, Name := UNKNOWN }

/-- `pci.Address` (declared in this package outside the given source;
shape fixed by the spec's data model: domain/bus/slot/function). -/
structure Address where
  Domain : String
  Bus : String
  Slot : String
  Function : String
deriving DecidableEq

/-- An ASCII hexadecimal digit. -/
def isHexDigit (c : Char) : Bool :=
  c.isDigit || ('a' ≤ c && c ≤ 'f') || ('A' ≤ c && c ≤ 'F')

/-- A character list of exactly `n` hex digits. -/
def isHexField (n : Nat) (s : List Char) : Bool :=
  s.length == n && s.all isHexDigit

/-- Splitting a character list on a separator character (the behaviour of
Go's `strings.Split` / a single-character `String.splitOn`). -/
def splitOnChar (sep : Char) : List Char → List (List Char)
  | [] => [[]]
  | c :: rest =>
    if c == sep then
      [] :: splitOnChar sep rest
    else
      match splitOnChar sep rest with
      | [] => [[c]]
      | s :: ss => (c :: s) :: ss

/-- Modelled from the spec: `AddressFromString` (the Address Parser) is
declared in this package but its defining file is not part of the given
source.  Spec §4.1: accepts the canonical form `domain:bus:slot.function`
and a short form without an explicit domain by substituting a zero
domain; returns "no value" when the string cannot be split into the
expected number of colon/period-delimited segments.  Spec §3/§6: the
four fields are syntactically valid hex substrings of the canonical
`DDDD:BB:SS.F` form (`BB:SS.F` for the short form). -/
def AddressFromString (address : String) : Option Address :=
  match splitOnChar ':' address.toList with
  | [domain, bus, rest] =>
    match splitOnChar '.' rest with
    | [slot, func] =>
      if isHexField 4 domain && isHexField 2 bus &&
         isHexField 2 slot && isHexField 1 func then
        some ⟨domain.asString, bus.asString, slot.asString, func.asString⟩
      else none
    | _ => none
  | [bus, rest] =>
    match splitOnChar '.' rest with
    | [slot, func] =>
      if isHexField 2 bus && isHexField 2 slot && isHexField 1 func then
        some ⟨"0000", bus.asString, slot.asString, func.asString⟩
      else none
    | _ => none
  | _ => none

/-- The per-device part of the path built by `getDeviceModaliasPath`:
the canonical `Domain:Bus:Slot.Function` key reconstructed from the
parsed address (the `SysBusPciDevices` prefix and the `modalias` suffix
are fixed, so the key alone identifies the file). -/
def modaliasPathKey (a : Address) : String :=
  a.Domain ++ ":" ++ a.Bus ++ ":" ++ a.Slot ++ "." ++ a.Function

/-- `getDeviceModaliasPath`: parses the address and builds the modalias
file location; Go returns `""` when the address does not parse, modelled
as `none`. -/
def getDeviceModaliasPath (address : String) : Option String :=
  (AddressFromString address).map modaliasPathKey

/-- `pci.Device`. -/
structure Device where
  Address : String
  Vendor : Vendor
  Subsystem : Product
  Product : Product
  Class : PCIClass
  Subclass : Subclass
  ProgrammingInterface : ProgrammingInterface

/-- `GetDevice`.  The filesystem is the external collaborator `fs`,
mapping a modalias path key to the file's bytes (`none` = absent or
unreadable).  Returns `nil` when the address does not parse or the
modalias file cannot be read. -/
def GetDevice (info : Info) (fs : String → Option (List Char))
    (address : String) : Option Device :=
  match getDeviceModaliasPath address with
  | none => none
  | some fp =>
    match parseModaliasFile (fs fp) with
    | none => none
    | some mi =>
      some {
        Address := address
        Vendor := findPCIVendor info mi.vendorID
        Subsystem := findPCISubsystem info mi.vendorID mi.productID
          mi.subvendorID mi.subproductID
        Product := findPCIProduct info mi.vendorID mi.productID
        Class := findPCIClass info mi.classID
        Subclass := findPCISubclass info mi.classID mi.subclassID
        ProgrammingInterface := findPCIProgrammingInterface info mi.classID
          mi.subclassID mi.progIfaceID
      }

/-- A diagnostic written to the error channel (stderr) by `ListDevices`. -/
inductive Diag where
  | readDirFailed
  | deviceFailed (addr : String)
deriving DecidableEq

/-- The per-address loop of `ListDevices`: a `nil` device is skipped with
one diagnostic and the loop continues with the next address. -/
def listDevicesLoop (info : Info) (fs : String → Option (List Char)) :
    List String → List Device × List Diag
  | [] => ([], [])
  | addr :: rest =>
    let r := listDevicesLoop info fs rest
    match GetDevice info fs addr with
    | none => (r.1, .deviceFailed addr :: r.2)
    | some dev => (dev :: r.1, r.2)

/-- `ListDevices`.  The directory listing is the external collaborator
`links` (`none` = `ioutil.ReadDir` failed, in which case an error is
reported and the empty result is returned). -/
def ListDevices (info : Info) (fs : String → Option (List Char))
    (links : Option (List String)) : List Device × List Diag :=
  match links with
  | none => ([], [.readDirFailed])
  | some ls => listDevicesLoop info fs ls

/-! ### Specification-level substring extraction -/

/-- The substring of `data` at 0-indexed end-exclusive offsets `[a, b)`,
defined positionally: character `j` of the result is character `a + j`
of `data`, NUL beyond the end of `data` (the content of the zeroed read
buffer). -/
def substrAt (data : List Char) (a b : Nat) : List Char :=
  (List.range (b - a)).map (fun j => data.getD (a + j) nulChar)

lemma getD_replicate_self (r n : Nat) (d : Char) :
    (List.replicate r d).getD n d = d := by
  rcases Nat.lt_or_ge n r with h | h
  · rw [List.getD_eq_getElem _ _ (by simpa using h)]
    simp
  · exact List.getD_eq_default _ _ (by simpa using h)

lemma readBuffer_getD (data : List Char) (cap i : Nat) :
    (readBuffer data cap).getD i nulChar = data.getD i nulChar := by
  unfold readBuffer
  rcases Nat.lt_or_ge i data.length with hi | hi
  · exact List.getD_append _ _ _ _ hi
  · rw [List.getD_append_right _ _ _ _ hi, List.getD_eq_default _ _ hi,
      getD_replicate_self]

lemma goSlice_eq_substrAt (data : List Char) (a b : Nat)
    (hab : a ≤ b) (hb : b ≤ 512) :
    goSlice data a b = substrAt data a b := by
  have hlen : (readBuffer data 512).length = data.length + (512 - data.length) := by
    simp [readBuffer]
  apply List.ext_getElem
  · simp [goSlice, substrAt, readBuffer]
    omega
  · intro i h1 h2
    simp only [goSlice, substrAt, List.getElem_map, List.getElem_range,
      List.getElem_take, List.getElem_drop]
    simp only [goSlice, List.length_take, List.length_drop, hlen] at h1
    rw [← List.getD_eq_getElem _ nulChar (by omega), readBuffer_getD]

/-- The decoder extracts exactly the seven positional substrings, on data
of any length (short data reads NUL beyond its end, exactly as the
zeroed read buffer does). -/
lemma parseModaliasData_eq (data : List Char) :
    parseModaliasData data = {
      vendorID := goToLowerStr (substrAt data 9 13)
      productID := goToLowerStr (substrAt data 18 22)
      subvendorID := goToLowerStr (substrAt data 28 32)
      subproductID := goToLowerStr (substrAt data 38 42)
      classID := goStr (substrAt data 44 46)
      subclassID := goStr (substrAt data 48 50)
      progIfaceID := goStr (substrAt data 51 53) } := by
  unfold parseModaliasData
  rw [goSlice_eq_substrAt data 9 13 (by omega) (by omega),
    goSlice_eq_substrAt data 18 22 (by omega) (by omega),
    goSlice_eq_substrAt data 28 32 (by omega) (by omega),
    goSlice_eq_substrAt data 38 42 (by omega) (by omega),
    goSlice_eq_substrAt data 44 46 (by omega) (by omega),
    goSlice_eq_substrAt data 48 50 (by omega) (by omega),
    goSlice_eq_substrAt data 51 53 (by omega) (by omega)]

/-! ### Claims -/

/-- C1: the claim states that a readable identifier blob shorter than 53
bytes is treated as absent (`nil`).  The code has no length check before
the fixed-offset slices; because `ioutil.ReadFile` returns a slice with
capacity at least 512 whose tail is zeroed, and Go slice expressions are
bounds-checked against the capacity, the slices succeed on a short blob
and read NUL bytes.  So the readable 8-byte blob `pci:0123` is decoded
into a non-nil record whose seven fields are NUL-filled garbage — not
the absent value the claim (and the spec's invariant that a short blob
must not be decoded) requires.  The never-faults half of the claim does
hold: no panic is reachable, which is why the embedding is total. -/
theorem C1_short_blob_decoded_not_absent :
    parseModaliasFile (some ("pci:0123".toList)) =
      some { vendorID := "\x00\x00\x00\x00", productID := "\x00\x00\x00\x00",
             subvendorID := "\x00\x00\x00\x00", subproductID := "\x00\x00\x00\x00",
             classID := "\x00\x00", subclassID := "\x00\x00",
             progIfaceID := "\x00\x00" } := by
  rfl

/-- C3: for every blob of at least 53 bytes the decoder extracts exactly
the seven substrings at 0-indexed end-exclusive offsets
vendorID=[9,13), productID=[18,22), subvendorID=[28,32),
subproductID=[38,42), classID=[44,46), subclassID=[48,50),
progIfaceID=[51,53), lowercasing the vendor family. -/
theorem C3_decoder_offsets (data : List Char) (h : 53 ≤ data.length) :
    parseModaliasFile (some data) = some {
      vendorID := goToLowerStr (substrAt data 9 13)
      productID := goToLowerStr (substrAt data 18 22)
      subvendorID := goToLowerStr (substrAt data 28 32)
      subproductID := goToLowerStr (substrAt data 38 42)
      classID := goStr (substrAt data 44 46)
      subclassID := goStr (substrAt data 48 50)
      progIfaceID := goStr (substrAt data 51 53) } := by
  rw [show parseModaliasFile (some data) = some (parseModaliasData data) from rfl,
    parseModaliasData_eq]

/-- C3 witness: the canonical blob
`pci:v000010DEd00001C82sv00001043sd00008613bc03sc00i00` decodes to
vendorID="10de", productID="1c82", subvendorID="1043",
subproductID="8613", classID="03", subclassID="00", progIfaceID="00". -/
theorem C3_decoder_offsets_witness :
    parseModaliasFile
        (some ("pci:v000010DEd00001C82sv00001043sd00008613bc03sc00i00".toList)) =
      some { vendorID := "10de", productID := "1c82", subvendorID := "1043",
             subproductID := "8613", classID := "03", subclassID := "00",
             progIfaceID := "00" } := by
  have h := C3_decoder_offsets
    ("pci:v000010DEd00001C82sv00001043sd00008613bc03sc00i00".toList) (by decide)
  rw [h]
  rfl

/-- C4: for every decoded blob, exactly the four vendor-family fields are
lowercased (character-wise `toLower` of the raw slice) and the three
class-family fields are byte-for-byte the raw slice. -/
theorem C4_lowercase_asymmetry (data : List Char) (mi : deviceModaliasInfo)
    (h : parseModaliasFile (some data) = some mi) :
    (mi.vendorID = ((substrAt data 9 13).map Char.toLower).asString ∧
     mi.productID = ((substrAt data 18 22).map Char.toLower).asString ∧
     mi.subvendorID = ((substrAt data 28 32).map Char.toLower).asString ∧
     mi.subproductID = ((substrAt data 38 42).map Char.toLower).asString) ∧
    (mi.classID = (substrAt data 44 46).asString ∧
     mi.subclassID = (substrAt data 48 50).asString ∧
     mi.progIfaceID = (substrAt data 51 53).asString) := by
  have hmi : parseModaliasData data = mi := Option.some.inj h
  subst hmi
  rw [parseModaliasData_eq]
  exact ⟨⟨rfl, rfl, rfl, rfl⟩, rfl, rfl, rfl⟩

/-- C4 witness: a blob with uppercase hex in every field lowercases the
vendor family and preserves the class family (`0A`, `0B`, `0C`) verbatim. -/
theorem C4_lowercase_asymmetry_witness :
    ∃ mi, parseModaliasFile
        (some ("pci:v000010DEd00001C82sv00001043sd00008613bc0Asc0Bi0C".toList)) =
          some mi ∧
      mi.vendorID = "10de" ∧ mi.classID = "0A" ∧ mi.subclassID = "0B" ∧
      mi.progIfaceID = "0C" := by
  refine ⟨_, rfl, ?_⟩
  have h := C4_lowercase_asymmetry
    ("pci:v000010DEd00001C82sv00001043sd00008613bc0Asc0Bi0C".toList) _ rfl
  obtain ⟨⟨hv, -, -, -⟩, hc, hsc, hp⟩ := h
  refine ⟨hv.trans (by decide), hc.trans (by decide), hsc.trans (by decide),
    hp.trans (by decide)⟩

/-! ### A small concrete database for concrete evaluations -/

def sampleSubsys : Product := .mk "1043" "8613" "TUF GTX 1050" []

def sampleProduct : Product := .mk "10de" "1c82" "GP107" [sampleSubsys]

def sampleVendor : Vendor := ⟨"10de", "NVIDIA Corporation", [sampleProduct]⟩

def sampleSubvendor : Vendor := ⟨"1043", "ASUSTeK Computer Inc.", []⟩

def samplePI : ProgrammingInterface := ⟨"00", "VGA controller"⟩

def sampleSubclass : Subclass := ⟨"00", "VGA compatible controller", [samplePI]⟩

def sampleClass : PCIClass := ⟨"03", "Display controller", [sampleSubclass]⟩

def sampleInfo : Info where
  Classes := fun c => if c == "03" then some sampleClass else none
  Vendors := fun v =>
    if v == "10de" then some sampleVendor
    else if v == "1043" then some sampleSubvendor
    else none
  Products := fun k => if k == "10de1c82" then some sampleProduct else none

def sampleBlob : String := "pci:v000010DEd00001C82sv00001043sd00008613bc03sc00i00"

def sampleFs : String → Option (List Char) := fun fp =>
  if fp == "0000:03:00.0" then some sampleBlob.toList else none

/-- C7: a vendor ID absent from the vendor map resolves to the synthetic
Vendor with the queried ID, the unknown sentinel name and an empty
product list; a present vendor ID returns the database record unchanged. -/
theorem C7_findPCIVendor_total (info : Info) (vendorID : String) :
    (info.Vendors vendorID = none →
      findPCIVendor info vendorID = ⟨vendorID, UNKNOWN, []⟩) ∧
    (∀ vend, info.Vendors vendorID = some vend →
      findPCIVendor info vendorID = vend) := by
  constructor
  · intro h
    simp [findPCIVendor, h]
  · intro vend h
    simp [findPCIVendor, h]

/-- C7 witness: a missing ID `ffff` yields the synthetic record, the
present ID `10de` yields the database record. -/
theorem C7_findPCIVendor_total_witness :
    findPCIVendor sampleInfo "ffff" = ⟨"ffff", UNKNOWN, []⟩ ∧
    findPCIVendor sampleInfo "10de" = sampleVendor := by
  constructor
  · exact (C7_findPCIVendor_total sampleInfo "ffff").1 rfl
  · exact (C7_findPCIVendor_total sampleInfo "10de").2 sampleVendor rfl

/-- C2: `findPCISubsystem` returns the synthetic
`Product{VendorID=subvendorID, ID=subproductID, Name=unknown}` whenever
the product key `vendorID+productID` misses, or the subvendor key
misses, or no entry of the product's subsystem list has ID equal to
`subproductID`; when both parents exist and some entry matches, it
returns the first matching entry. -/
theorem C2_findPCISubsystem_cases (info : Info)
    (vendorID productID subvendorID subproductID : String) :
    (info.Products (vendorID ++ productID) = none →
      findPCISubsystem info vendorID productID subvendorID subproductID =
        .mk subvendorID subproductID UNKNOWN []) ∧
    (info.Vendors subvendorID = none →
      findPCISubsystem info vendorID productID subvendorID subproductID =
        .mk subvendorID subproductID UNKNOWN []) ∧
    (∀ prod, info.Products (vendorID ++ productID) = some prod →
      (∀ e ∈ prod.Subsystems, e.ID ≠ subproductID) →
      findPCISubsystem info vendorID productID subvendorID subproductID =
        .mk subvendorID subproductID UNKNOWN []) ∧
    (∀ prod vend e, info.Products (vendorID ++ productID) = some prod →
      info.Vendors subvendorID = some vend →
      prod.Subsystems.find? (fun p => p.ID == subproductID) = some e →
      findPCISubsystem info vendorID productID subvendorID subproductID = e) := by
  refine ⟨?_, ?_, ?_, ?_⟩
  · intro h
    unfold findPCISubsystem
    rw [h]
    cases info.Vendors subvendorID <;> rfl
  · intro h
    unfold findPCISubsystem
    rw [h]
  · intro prod hp hnone
    unfold findPCISubsystem
    rw [hp]
    have hfind : prod.Subsystems.find? (fun p => p.ID == subproductID) = none := by
      rw [List.find?_eq_none]
      intro x hx
      simpa using hnone x hx
    cases info.Vendors subvendorID with
    | none => rfl
    | some vend => simp [hfind]
  · intro prod vend e hp hv hfind
    unfold findPCISubsystem
    rw [hp, hv]
    simp [hfind]

/-- C2 witness: with both parents present the first matching subsystem
entry is returned; with a missing subvendor the synthetic record is
returned even though the product half resolves. -/
theorem C2_findPCISubsystem_cases_witness :
    findPCISubsystem sampleInfo "10de" "1c82" "1043" "8613" = sampleSubsys ∧
    findPCISubsystem sampleInfo "10de" "1c82" "ffff" "8613" =
      .mk "ffff" "8613" UNKNOWN [] := by
  constructor
  · exact (C2_findPCISubsystem_cases sampleInfo "10de" "1c82" "1043" "8613").2.2.2
      sampleProduct sampleSubvendor sampleSubsys rfl rfl rfl
  · exact (C2_findPCISubsystem_cases sampleInfo "10de" "1c82" "ffff" "8613").2.1 rfl

/-- C8: `findPCIProgrammingInterface` is exactly the first-match linear
search by `progIfaceID` over the interface list of the subclass record
returned by `findPCISubclass` for the same class and subclass IDs, with
the synthetic record on a miss; in particular when the class is absent,
or the class has no subclass with the requested ID, the result is the
synthetic record. -/
theorem C8_findPCIProgrammingInterface_spec (info : Info)
    (classID subclassID progIfaceID : String) :
    ((∀ e, (findPCISubclass info classID subclassID).ProgrammingInterfaces.find?
        (fun pi0 => pi0.ID == progIfaceID) = some e →
      findPCIProgrammingInterface info classID subclassID progIfaceID = e) ∧
     ((findPCISubclass info classID subclassID).ProgrammingInterfaces.find?
        (fun pi0 => pi0.ID == progIfaceID) = none →
      findPCIProgrammingInterface info classID subclassID progIfaceID =
        ⟨progIfaceID, UNKNOWN⟩)) ∧
    (info.Classes classID = none →
      findPCIProgrammingInterface info classID subclassID progIfaceID =
        ⟨progIfaceID, UNKNOWN⟩) ∧
    (∀ cl, info.Classes classID = some cl →
      (∀ sc ∈ cl.Subclasses, sc.ID ≠ subclassID) →
      findPCIProgrammingInterface info classID subclassID progIfaceID =
        ⟨progIfaceID, UNKNOWN⟩) := by
  have hsub : ∀ h0 : Subclass, findPCISubclass info classID subclassID = h0 →
      (h0.ProgrammingInterfaces.find? (fun pi0 => pi0.ID == progIfaceID) = none →
        findPCIProgrammingInterface info classID subclassID progIfaceID =
          ⟨progIfaceID, UNKNOWN⟩) := by
    intro h0 hh hfind
    unfold findPCIProgrammingInterface
    rw [hh]
    simp only [hfind]
  refine ⟨⟨?_, hsub _ rfl⟩, ?_, ?_⟩
  · intro e hfind
    unfold findPCIProgrammingInterface
    simp only [hfind]
  · intro h
    have hcls : findPCISubclass info classID subclassID =
        ⟨subclassID, UNKNOWN, []⟩ := by
      unfold findPCISubclass
      rw [h]
    exact hsub _ hcls rfl
  · intro cl hcl hnone
    have hfind : cl.Subclasses.find? (fun sc => sc.ID == subclassID) = none := by
      rw [List.find?_eq_none]
      intro x hx
      simpa using hnone x hx
    have hcls : findPCISubclass info classID subclassID =
        ⟨subclassID, UNKNOWN, []⟩ := by
      unfold findPCISubclass
      rw [hcl]
      simp only [hfind]
    exact hsub _ hcls rfl

/-- C8 witness: a present interface is found through the resolved
subclass; a missing class yields the synthetic record. -/
theorem C8_findPCIProgrammingInterface_spec_witness :
    findPCIProgrammingInterface sampleInfo "03" "00" "00" = samplePI ∧
    findPCIProgrammingInterface sampleInfo "ff" "00" "00" = ⟨"00", UNKNOWN⟩ := by
  constructor
  · exact (C8_findPCIProgrammingInterface_spec sampleInfo "03" "00" "00").1.1
      samplePI rfl
  · exact (C8_findPCIProgrammingInterface_spec sampleInfo "ff" "00" "00").2.1 rfl

/-! ### Hit-or-synthetic characterisation of each resolution level -/

/-- A resolved vendor is a genuine database hit or the synthetic record. -/
def VendorResolved (info : Info) (vendorID : String) (v : Vendor) : Prop :=
  info.Vendors vendorID = some v ∨ v = ⟨vendorID, UNKNOWN, []⟩

/-- A resolved product is a genuine database hit or the synthetic record. -/
def ProductResolved (info : Info) (vendorID productID : String) (p : Product) : Prop :=
  info.Products (vendorID ++ productID) = some p ∨ p = .mk "" productID UNKNOWN []

/-- A resolved subsystem is a member of the looked-up product's subsystem
list with the requested ID, or the synthetic record. -/
def SubsystemResolved (info : Info)
    (vendorID productID subvendorID subproductID : String) (p : Product) : Prop :=
  (∃ prod, info.Products (vendorID ++ productID) = some prod ∧
    p ∈ prod.Subsystems ∧ p.ID = subproductID) ∨
  p = .mk subvendorID subproductID UNKNOWN []

/-- A resolved class is a genuine database hit or the synthetic record. -/
def ClassResolved (info : Info) (classID : String) (c : PCIClass) : Prop :=
  info.Classes classID = some c ∨ c = ⟨classID, UNKNOWN, []⟩

/-- A resolved subclass is a member of the looked-up class's subclass list
with the requested ID, or the synthetic record. -/
def SubclassResolved (info : Info) (classID subclassID : String) (sc : Subclass) : Prop :=
  (∃ cl, info.Classes classID = some cl ∧
    sc ∈ cl.Subclasses ∧ sc.ID = subclassID) ∨
  sc = ⟨subclassID, UNKNOWN, []⟩

/-- A resolved programming interface is a member of the resolved
subclass's interface list with the requested ID, or the synthetic record. -/
def ProgIfaceResolved (info : Info)
    (classID subclassID progIfaceID : String) (x : ProgrammingInterface) : Prop :=
  (x ∈ (findPCISubclass info classID subclassID).ProgrammingInterfaces ∧
    x.ID = progIfaceID) ∨
  x = ⟨progIfaceID, UNKNOWN⟩

/-- Zeta-reduced equation for `findPCISubsystem`. -/
lemma findPCISubsystem_eq (info : Info) (v p sv sp : String) :
    findPCISubsystem info v p sv sp =
      match info.Vendors sv, info.Products (v ++ p) with
      | some _, some prod =>
        match prod.Subsystems.find? (fun q => q.ID == sp) with
        | some q => q
        | none => .mk sv sp UNKNOWN []
      | _, _ => .mk sv sp UNKNOWN [] := rfl

/-- Zeta-reduced equation for `findPCIProgrammingInterface`. -/
lemma findPCIProgrammingInterface_eq (info : Info) (c s p : String) :
    findPCIProgrammingInterface info c s p =
      match (findPCISubclass info c s).ProgrammingInterfaces.find?
          (fun x => x.ID == p) with
      | some x => x
      | none => ⟨p, UNKNOWN⟩ := rfl

lemma findPCIVendor_resolved (info : Info) (vendorID : String) :
    VendorResolved info vendorID (findPCIVendor info vendorID) := by
  unfold VendorResolved findPCIVendor
  cases h : info.Vendors vendorID with
  | none => exact Or.inr rfl
  | some vend => exact Or.inl rfl

lemma findPCIProduct_resolved (info : Info) (vendorID productID : String) :
    ProductResolved info vendorID productID (findPCIProduct info vendorID productID) := by
  unfold ProductResolved findPCIProduct
  cases h : info.Products (vendorID ++ productID) with
  | none => exact Or.inr rfl
  | some prod => exact Or.inl rfl

lemma findPCISubsystem_resolved (info : Info) (v p sv sp : String) :
    SubsystemResolved info v p sv sp (findPCISubsystem info v p sv sp) := by
  unfold SubsystemResolved
  rw [findPCISubsystem_eq]
  cases hv : info.Vendors sv with
  | none => exact Or.inr rfl
  | some vend =>
    cases hp : info.Products (v ++ p) with
    | none => exact Or.inr rfl
    | some prod =>
      cases hf : prod.Subsystems.find? (fun q => q.ID == sp) with
      | none => exact Or.inr (by simp only [hf])
      | some q =>
        simp only [hf]
        exact Or.inl ⟨prod, rfl, List.mem_of_find?_eq_some hf,
          by simpa using List.find?_some hf⟩

lemma findPCIClass_resolved (info : Info) (classID : String) :
    ClassResolved info classID (findPCIClass info classID) := by
  unfold ClassResolved findPCIClass
  cases h : info.Classes classID with
  | none => exact Or.inr rfl
  | some cl => exact Or.inl rfl

lemma findPCISubclass_resolved (info : Info) (classID subclassID : String) :
    SubclassResolved info classID subclassID (findPCISubclass info classID subclassID) := by
  unfold SubclassResolved findPCISubclass
  cases h : info.Classes classID with
  | none => exact Or.inr rfl
  | some cl =>
    cases hf : cl.Subclasses.find? (fun sc => sc.ID == subclassID) with
    | none => exact Or.inr (by simp only [hf])
    | some sc =>
      simp only [hf]
      exact Or.inl ⟨cl, rfl, List.mem_of_find?_eq_some hf,
        by simpa using List.find?_some hf⟩

lemma findPCIProgrammingInterface_resolved (info : Info) (c s p : String) :
    ProgIfaceResolved info c s p (findPCIProgrammingInterface info c s p) := by
  unfold ProgIfaceResolved
  rw [findPCIProgrammingInterface_eq]
  cases hf : (findPCISubclass info c s).ProgrammingInterfaces.find?
      (fun x => x.ID == p) with
  | none => exact Or.inr (by simp only [hf])
  | some x =>
    simp only [hf]
    exact Or.inl ⟨List.mem_of_find?_eq_some hf, by simpa using List.find?_some hf⟩

/-- Equation for `GetDevice` when the address parses to the modalias
location `fp`. -/
lemma GetDevice_eq_of_path (info : Info) (fs : String → Option (List Char))
    (address fp : String) (hfp : getDeviceModaliasPath address = some fp) :
    GetDevice info fs address =
      match parseModaliasFile (fs fp) with
      | none => none
      | some mi => some {
          Address := address
          Vendor := findPCIVendor info mi.vendorID
          Subsystem := findPCISubsystem info mi.vendorID mi.productID
            mi.subvendorID mi.subproductID
          Product := findPCIProduct info mi.vendorID mi.productID
          Class := findPCIClass info mi.classID
          Subclass := findPCISubclass info mi.classID mi.subclassID
          ProgrammingInterface := findPCIProgrammingInterface info mi.classID
            mi.subclassID mi.progIfaceID } := by
  unfold GetDevice
  rw [hfp]

/-- Equation for `GetDevice` when the address does not parse. -/
lemma GetDevice_eq_of_no_path (info : Info) (fs : String → Option (List Char))
    (address : String) (hfp : getDeviceModaliasPath address = none) :
    GetDevice info fs address = none := by
  unfold GetDevice
  rw [hfp]

/-- C5: once the address parses and the blob decodes, `GetDevice`
produces a device record whose six resolved fields are each a genuine
database hit or the synthetic unknown placeholder, for any database
contents.  `fp` is the modalias location derived from the address. -/
theorem C5_getdevice_all_resolved (info : Info) (fs : String → Option (List Char))
    (address fp : String) (mi : deviceModaliasInfo)
    (hfp : getDeviceModaliasPath address = some fp)
    (hmi : parseModaliasFile (fs fp) = some mi) :
    ∃ dev, GetDevice info fs address = some dev ∧
      VendorResolved info mi.vendorID dev.Vendor ∧
      ProductResolved info mi.vendorID mi.productID dev.Product ∧
      SubsystemResolved info mi.vendorID mi.productID mi.subvendorID
        mi.subproductID dev.Subsystem ∧
      ClassResolved info mi.classID dev.Class ∧
      SubclassResolved info mi.classID mi.subclassID dev.Subclass ∧
      ProgIfaceResolved info mi.classID mi.subclassID mi.progIfaceID
        dev.ProgrammingInterface := by
  refine ⟨{ Address := address
            Vendor := findPCIVendor info mi.vendorID
            Subsystem := findPCISubsystem info mi.vendorID mi.productID
              mi.subvendorID mi.subproductID
            Product := findPCIProduct info mi.vendorID mi.productID
            Class := findPCIClass info mi.classID
            Subclass := findPCISubclass info mi.classID mi.subclassID
            ProgrammingInterface := findPCIProgrammingInterface info mi.classID
              mi.subclassID mi.progIfaceID },
    ?_, findPCIVendor_resolved info mi.vendorID,
    findPCIProduct_resolved info mi.vendorID mi.productID,
    findPCISubsystem_resolved info mi.vendorID mi.productID mi.subvendorID
      mi.subproductID,
    findPCIClass_resolved info mi.classID,
    findPCISubclass_resolved info mi.classID mi.subclassID,
    findPCIProgrammingInterface_resolved info mi.classID mi.subclassID
      mi.progIfaceID⟩
  rw [GetDevice_eq_of_path info fs address fp hfp, hmi]

/-- The decoded record of the sample blob. -/
def sampleMi : deviceModaliasInfo where
  vendorID := "10de"
  productID := "1c82"
  subvendorID := "1043"
  subproductID := "8613"
  classID := "03"
  subclassID := "00"
  progIfaceID := "00"

/-- C5 witness: the sample database and filesystem at address
`0000:03:00.0`. -/
theorem C5_getdevice_all_resolved_witness :
    ∃ dev, GetDevice sampleInfo sampleFs "0000:03:00.0" = some dev ∧
      VendorResolved sampleInfo sampleMi.vendorID dev.Vendor ∧
      ProductResolved sampleInfo sampleMi.vendorID sampleMi.productID dev.Product ∧
      SubsystemResolved sampleInfo sampleMi.vendorID sampleMi.productID
        sampleMi.subvendorID sampleMi.subproductID dev.Subsystem ∧
      ClassResolved sampleInfo sampleMi.classID dev.Class ∧
      SubclassResolved sampleInfo sampleMi.classID sampleMi.subclassID dev.Subclass ∧
      ProgIfaceResolved sampleInfo sampleMi.classID sampleMi.subclassID
        sampleMi.progIfaceID dev.ProgrammingInterface :=
  C5_getdevice_all_resolved sampleInfo sampleFs "0000:03:00.0" "0000:03:00.0"
    sampleMi rfl rfl

/-- C9: a malformed address, and an address whose modalias file is absent
or unreadable, both make `GetDevice` return `nil` — and never a device
record.  The absence of any fault is expressed by the embedding itself:
every operation of this file is a total function. -/
theorem C9_getdevice_nil_on_parse_failure (info : Info)
    (fs : String → Option (List Char)) (address : String) :
    (AddressFromString address = none → GetDevice info fs address = none) ∧
    (∀ fp, getDeviceModaliasPath address = some fp → fs fp = none →
      GetDevice info fs address = none) := by
  constructor
  · intro h
    exact GetDevice_eq_of_no_path info fs address
      (by simp [getDeviceModaliasPath, h])
  · intro fp hfp hread
    rw [GetDevice_eq_of_path info fs address fp hfp, hread]
    rfl

/-- C9 witness: the malformed address `bogus`, and the well-formed
address `0000:00:00.0` whose modalias file is absent in `sampleFs`. -/
theorem C9_getdevice_nil_on_parse_failure_witness :
    GetDevice sampleInfo sampleFs "bogus" = none ∧
    GetDevice sampleInfo sampleFs "0000:00:00.0" = none := by
  constructor
  · exact (C9_getdevice_nil_on_parse_failure sampleInfo sampleFs "bogus").1 rfl
  · exact (C9_getdevice_nil_on_parse_failure sampleInfo sampleFs
      "0000:00:00.0").2 "0000:00:00.0" rfl rfl

/-- C10: whenever `GetDevice` succeeds, the `Address` field of the
returned device is the raw input string echoed verbatim (even for a
short-form address, which is only canonicalised to locate the blob). -/
theorem C10_address_echoed_verbatim (info : Info)
    (fs : String → Option (List Char)) (address : String) (dev : Device)
    (h : GetDevice info fs address = some dev) :
    dev.Address = address := by
  cases hfp : getDeviceModaliasPath address with
  | none =>
    rw [GetDevice_eq_of_no_path info fs address hfp] at h
    exact Option.noConfusion h
  | some fp =>
    rw [GetDevice_eq_of_path info fs address fp hfp] at h
    cases hm : parseModaliasFile (fs fp) with
    | none =>
      rw [hm] at h
      exact Option.noConfusion h
    | some mi =>
      rw [hm] at h
      cases h
      rfl

/-- C10 witness: the short-form address `03:00.0` resolves through the
canonical key `0000:03:00.0` but is stored as given. -/
theorem C10_address_echoed_verbatim_witness :
    ∃ dev, GetDevice sampleInfo sampleFs "03:00.0" = some dev ∧
      dev.Address = "03:00.0" :=
  ⟨_, rfl, C10_address_echoed_verbatim sampleInfo sampleFs "03:00.0" _ rfl⟩

/-! ### Enumeration -/

/-- The devices of the addresses whose resolution succeeds, in order. -/
def okDevices (info : Info) (fs : String → Option (List Char))
    (ls : List String) : List Device :=
  ls.filterMap (fun a => GetDevice info fs a)

/-- One diagnostic per address whose resolution returns `nil`, in order. -/
def skippedDiags (info : Info) (fs : String → Option (List Char))
    (ls : List String) : List Diag :=
  ls.filterMap (fun a =>
    match GetDevice info fs a with
    | none => some (.deviceFailed a)
    | some _ => none)

lemma listDevicesLoop_eq (info : Info) (fs : String → Option (List Char))
    (ls : List String) :
    listDevicesLoop info fs ls = (okDevices info fs ls, skippedDiags info fs ls) := by
  induction ls with
  | nil => rfl
  | cons a rest ih =>
    unfold listDevicesLoop
    rw [ih]
    cases hga : GetDevice info fs a with
    | none => simp [okDevices, skippedDiags, hga]
    | some dev => simp [okDevices, skippedDiags, hga]

/-- C6: when the candidate list cannot be obtained, enumeration reports
the failure and returns the empty result; otherwise every address whose
resolution returns `nil` is skipped with exactly one diagnostic while
the remaining addresses still resolve, in order. -/
theorem C6_listdevices_skips_failures (info : Info)
    (fs : String → Option (List Char)) :
    ListDevices info fs none = ([], [.readDirFailed]) ∧
    ∀ ls : List String,
      ListDevices info fs (some ls) =
        (okDevices info fs ls, skippedDiags info fs ls) :=
  ⟨rfl, fun ls => listDevicesLoop_eq info fs ls⟩

/-- C6 witness: a batch with one unresolvable address `bogus` followed by
a resolvable one still yields the later device, with one diagnostic for
the failing address; an unavailable candidate list yields the empty
result with the enumeration-failure report. -/
theorem C6_listdevices_skips_failures_witness :
    ListDevices sampleInfo sampleFs none = ([], [.readDirFailed]) ∧
    ∃ dev, GetDevice sampleInfo sampleFs "0000:03:00.0" = some dev ∧
      ListDevices sampleInfo sampleFs (some ["bogus", "0000:03:00.0"]) =
        ([dev], [.deviceFailed "bogus"]) := by
  refine ⟨(C6_listdevices_skips_failures sampleInfo sampleFs).1, _, rfl, ?_⟩
  rw [(C6_listdevices_skips_failures sampleInfo sampleFs).2
    ["bogus", "0000:03:00.0"]]
  rfl

end Ghw
